import Mathlib

/-!
Verification of the provider dispatch and response-normalization layer of the
OpenClaw-Agent-Avatar front-end (src/services/aiService.ts, src/services/geminiService.ts,
src/App.tsx) against its natural-language specification.

The adapters are shallowly embedded: JSON bodies become an inductive `Json`
value; JavaScript truthiness, property access, the `||` operator,
`JSON.stringify`, `decodeURIComponent` and default-locale `localeCompare` are
modelled as total Lean functions; the network is an explicit oracle argument
(what `fetch` would return), so every adapter is a pure function of its inputs
and the oracle, and the number of fetches it performs is part of its result
where a claim needs it.  A JavaScript exception is an `Except.error`; `try` /
`catch` blocks become matches on the oracle outcome.
-/

namespace OpenClawAvatar

/-- A parsed JSON value, as produced by `response.json()`.  Numbers are modelled
as integers (no claim involves fractional numerics).  Objects are association
lists in document order. -/
inductive Json where
  | null
  | bool (b : Bool)
  | num (n : Int)
  | str (s : String)
  | arr (elems : List Json)
  | obj (fields : List (String × Json))

/-- JavaScript truthiness of a JSON value: `null`, `false`, `0` and the empty
string are falsy; every array and object (even empty ones) is truthy. -/
def Json.truthy : Json → Bool
  | .null => false
  | .bool b => b
  | .num n => decide (n ≠ 0)
  | .str s => decide (s ≠ "")
  | .arr _ => true
  | .obj _ => true

/-- Truthiness of a possibly-undefined value (`none` models `undefined`). -/
def truthyOpt : Option Json → Bool
  | none => false
  | some j => j.truthy

/-- JavaScript property read `v.k`: the first binding of `k` on an object,
`undefined` (`none`) otherwise. -/
def Json.getField : Json → String → Option Json
  | .obj fs, k => fs.lookup k
  | _, _ => none

/-- Property read through a possibly-undefined receiver used after `?.`:
`undefined` and `null` receivers yield `undefined`, other non-objects too. -/
def optChain (v : Option Json) (k : String) : Option Json :=
  match v with
  | none => none
  | some j => j.getField k

/-- Decimal digits of a natural number, least-significant last, by repeated
division; the fuel argument dominates the number of digits. -/
def natDigitsAux : Nat → Nat → List Char
  | 0, _ => []
  | fuel + 1, n =>
    if n < 10 then [Char.ofNat (48 + n % 10)]
    else natDigitsAux fuel (n / 10) ++ [Char.ofNat (48 + n % 10)]

/-- Decimal rendering of a natural number (the JavaScript `String(n)` for the
integers this model uses). -/
def natRepr (n : Nat) : String := String.mk (natDigitsAux (n + 1) n)

/-- Decimal rendering of an integer. -/
def intRepr (i : Int) : String :=
  if i < 0 then "-" ++ natRepr i.natAbs else natRepr i.natAbs

/-- JSON string escaping of one character (quote and backslash; enough for the
bodies the claims touch). -/
def jsonEscapeChar (c : Char) : List Char :=
  if c = '"' then ['\\', '"'] else if c = '\\' then ['\\', '\\'] else [c]

/-- JSON string escaping. -/
def jsonEscape (s : String) : String := String.mk (s.data.map jsonEscapeChar).flatten

mutual
/-- The model of `JSON.stringify` on parsed values. -/
def Json.stringify : Json → String
  | .null => "null"
  | .bool true => "true"
  | .bool false => "false"
  | .num n => intRepr n
  | .str s => "\"" ++ jsonEscape s ++ "\""
  | .arr xs => "[" ++ stringifyElems xs ++ "]"
  | .obj fs => "\x7b" ++ stringifyFields fs ++ "\x7d"

/-- Comma-separated serialization of array elements. -/
def stringifyElems : List Json → String
  | [] => ""
  | [x] => Json.stringify x
  | x :: y :: xs => Json.stringify x ++ "," ++ stringifyElems (y :: xs)

/-- Comma-separated serialization of object members. -/
def stringifyFields : List (String × Json) → String
  | [] => ""
  | [(k, v)] => "\"" ++ jsonEscape k ++ "\":" ++ Json.stringify v
  | (k, v) :: m :: fs =>
      "\"" ++ jsonEscape k ++ "\":" ++ Json.stringify v ++ "," ++ stringifyFields (m :: fs)
end

/-- The JavaScript `a || b` where `a` may be `undefined`: `a` when truthy,
otherwise `b`. -/
def jsOrOpt (a : Option Json) (b : Json) : Json :=
  match a with
  | some v => if v.truthy then v else b
  | none => b

/-! ### The data model of src/types.ts -/

/-- Message role (types.ts `Message.role`). -/
inductive Role where
  | user
  | assistant
  | system
deriving Repr, DecidableEq

/-- File attachment (types.ts `Attachment`): name, MIME type, base64 payload. -/
structure Attachment where
  name : String
  type : String
  data : String
deriving Repr, DecidableEq

/-- One conversational turn (types.ts `Message`). -/
structure Message where
  id : String
  role : Role
  content : String
  timestamp : Int
  thoughts : Option (List String) := none
  attachments : Option (List Attachment) := none
deriving Repr, DecidableEq

/-- Active backend choice (types.ts `ApiProvider`). -/
inductive ApiProvider where
  | gemini
  | openrouter
  | openclaw
deriving Repr, DecidableEq

/-- Speech-to-text provider choice (types.ts `SttProvider`). -/
inductive SttProvider where
  | native
  | local_whisper
deriving Repr, DecidableEq

/-- Provider configuration (types.ts `Settings`). -/
structure Settings where
  apiProvider : ApiProvider
  geminiModel : String
  openRouterApiKey : String
  openRouterModel : String
  openClawBaseUrl : String
  openClawAgentId : String
  openClawAuthToken : String
  speechVoiceURI : Option String
  sttProvider : SttProvider
  localWhisperUrl : String
  lightIntensity : Rat
  activeAvatarId : String
deriving Repr, DecidableEq

/-- Canonical provider result (types.ts `AIResponse`).  The source declares
`content : string`, but the aggregator and custom-agent adapters can in fact
place any JSON value there, so the embedding keeps it as `Json`; `thoughts`
is `none` exactly when the returned object carries no `thoughts` property. -/
structure AIResponse where
  content : Json
  thoughts : Option (List Json)

/-- A thrown JavaScript exception, as far as the claims need to tell them
apart: `error m` is `new Error(m)`, `typeError` a TypeError from reading a
property of `undefined`, `netError` a rejected `fetch`, `parseError` a failed
`response.json()`. -/
inductive JsError where
  | error (msg : String)
  | typeError (msg : String)
  | netError
  | parseError
deriving Repr, DecidableEq

/-- HTTP success predicate, the model of `Response.ok` (status in 200..299). -/
def statusOk (s : Nat) : Bool := 200 ≤ s && s ≤ 299

/-! ### The custom-agent response normalizer (aiService.ts, getOpenClawResponse) -/

/-- Reply-content extraction of the custom-agent adapter, exactly the source
chain `data.response || data.message || data.text || data.output ||
JSON.stringify(data)`. -/
def openClawContent (data : Json) : Json :=
  jsOrOpt (data.getField "response")
    (jsOrOpt (data.getField "message")
      (jsOrOpt (data.getField "text")
        (jsOrOpt (data.getField "output")
          (.str data.stringify))))

/-- Elements of a possibly-undefined value known to be an array (the uses are
guarded by `Array.isArray`). -/
def elemsOf : Option Json → List Json
  | some (.arr xs) => xs
  | _ => []

/-- The test `Array.isArray(v)` on a possibly-undefined value. -/
def isArrOpt : Option Json → Bool
  | some (.arr _) => true
  | _ => false

/-- One `steps` element as the source maps it: kept when already a string,
otherwise `JSON.stringify`-ed. -/
def stringifyStep (s : Json) : Json :=
  match s with
  | .str t => .str t
  | v => .str v.stringify

/-- Reasoning-trace extraction of the custom-agent adapter: the source
initializes `thoughts` to `[]` and then overwrites it from `data.thoughts`
(truthy array), else `data.steps` (truthy array, elements stringified), else a
truthy `data.reasoning` wrapped in a singleton. -/
def openClawThoughts (data : Json) : List Json :=
  if truthyOpt (data.getField "thoughts") && isArrOpt (data.getField "thoughts") then
    elemsOf (data.getField "thoughts")
  else if truthyOpt (data.getField "steps") && isArrOpt (data.getField "steps") then
    (elemsOf (data.getField "steps")).map stringifyStep
  else if truthyOpt (data.getField "reasoning") then
    [(data.getField "reasoning").getD .null]
  else []

/-- Normalized custom-agent result: the source returns `{ content, thoughts }`,
so the `thoughts` property is always present (`some`), holding whatever the
trace extraction produced — the empty list when nothing matched. -/
def openClawNormalize (data : Json) : AIResponse :=
  { content := openClawContent data, thoughts := some (openClawThoughts data) }

/-! ### Specification-side characterizations (from the spec's words, for the
refinement statements of C1 and C2) -/

/-- The first field of `data` among `keys`, in order, whose value is non-empty
(JavaScript-truthy: present and not `null` / `false` / `0` / the empty
string).  This follows the spec's words for the reply-text priority scan. -/
def firstTruthyField (data : Json) : List String → Option Json
  | [] => none
  | k :: ks =>
    match data.getField k with
    | some v => if v.truthy then some v else firstTruthyField data ks
    | none => firstTruthyField data ks

/-- The reasoning trace as the spec describes it, with the branch guards taken
literally: the `thoughts` field whenever it is an array (no separate
truthiness test), else an array `steps` field with non-strings stringified,
else a truthy `reasoning` field wrapped as a singleton, else nothing. -/
def traceSpec (data : Json) : List Json :=
  if isArrOpt (data.getField "thoughts") then elemsOf (data.getField "thoughts")
  else if isArrOpt (data.getField "steps") then
    (elemsOf (data.getField "steps")).map stringifyStep
  else if truthyOpt (data.getField "reasoning") then [(data.getField "reasoning").getD .null]
  else []

/-! ### The custom-agent adapter (aiService.ts, getOpenClawResponse).  The
network is an oracle mapping the outgoing payload to what `fetch` +
`response.json()` would produce: `Except.error` a rejected fetch, otherwise
the status and the parsed body (`none` when the body is not JSON).  Headers
are not modelled; no claim depends on them. -/

/-- The request body the adapter builds (the wire payload of §6 of the spec). -/
structure OpenClawPayload where
  message : String
  agentId : String
  sessionId : String
  history : List (Role × String)
  files : List Attachment
deriving Repr, DecidableEq

/-- The single wrapped failure message of the custom-agent adapter's catch
block. -/
def openClawGenericError : JsError :=
  .error "Failed to connect to OpenClaw Agent. Check URL and Network tab."

/-- The custom-agent adapter.  `sessionNum` stands for the
`Math.floor(Math.random() * 100000)` draw.  The second component counts the
fetches performed.  Reading `history[history.length - 1].content` on an empty
history throws a TypeError before the `try` block, hence before any fetch. -/
def getOpenClawResponse (history : List Message) (settings : Settings)
    (currentAttachments : List Attachment) (sessionNum : Nat)
    (fetch : OpenClawPayload → Except Unit (Nat × Option Json)) :
    Except JsError AIResponse × Nat :=
  if settings.openClawBaseUrl = "" then
    (.error (.error "OpenClaw/Agent Base URL is required."), 0)
  else
    match history.getLast? with
    | none => (.error (.typeError "Cannot read properties of undefined (reading 'content')"), 0)
    | some lastMessage =>
      let payload : OpenClawPayload :=
        { message := lastMessage.content
          agentId := settings.openClawAgentId
          sessionId := "session-" ++ natRepr sessionNum
          history := history.dropLast.map (fun h => (h.role, h.content))
          files := currentAttachments.map (fun f => ⟨f.name, f.type, f.data⟩) }
      match fetch payload with
      | .error _ => (.error openClawGenericError, 1)
      | .ok (status, body) =>
        if statusOk status then
          match body with
          | some data => (.ok (openClawNormalize data), 1)
          | none => (.error openClawGenericError, 1)
        else (.error openClawGenericError, 1)

/-! ### The hosted-LLM adapter used by the dispatch facade (aiService.ts,
getGeminiResponse) and the standalone legacy service
(geminiService.ts, getAIResponse) -/

/-- What the SDK call returns on success: a response whose `text` may be
missing. -/
structure GeminiReply where
  text : Option String
deriving Repr, DecidableEq

/-- The JavaScript `a || b` on a possibly-undefined string. -/
def jsOrStr (a : Option String) (b : String) : String :=
  match a with
  | some s => if s = "" then b else s
  | none => b

/-- The hosted-LLM adapter of aiService.ts: on SDK success, content is
`response.text || "I didn't catch that."`; every thrown error is caught and
replaced by the one generic message (the oracle's `.error` payload carries the
underlying error's message, which this adapter discards). -/
def getGeminiResponse (history : List Message) (model : String)
    (currentAttachments : List Attachment) (call : Except String GeminiReply) :
    Except JsError AIResponse × Nat :=
  match history, model, currentAttachments, call with
  | _, _, _, .ok r =>
      (.ok { content := .str (jsOrStr r.text "I didn't catch that."), thoughts := none }, 1)
  | _, _, _, .error _ => (.error (.error "Failed to communicate with Gemini."), 1)

/-- Test that `pat` is an initial segment of `cs`. -/
def startsWithL : List Char → List Char → Bool
  | [], _ => true
  | _ :: _, [] => false
  | p :: ps, c :: cs => p == c && startsWithL ps cs

/-- Test that `pat` occurs inside `cs` (JavaScript `String.prototype.includes`). -/
def hasSubL (pat : List Char) : List Char → Bool
  | [] => startsWithL pat []
  | c :: cs => startsWithL pat (c :: cs) || hasSubL pat cs

/-- The JavaScript `s.includes(pat)`. -/
def strHasSub (s pat : String) : Bool := hasSubL pat.data s.data

/-- ASCII uppercase of one character (sufficient for the provider names the
source upper-cases). -/
def asciiUpperChar (c : Char) : Char :=
  if 'a' ≤ c ∧ c ≤ 'z' then Char.ofNat (c.toNat - 32) else c

/-- ASCII lowercase of one character. -/
def asciiLowerChar (c : Char) : Char :=
  if 'A' ≤ c ∧ c ≤ 'Z' then Char.ofNat (c.toNat + 32) else c

/-- ASCII uppercase test. -/
def asciiIsUpper (c : Char) : Bool := 'A' ≤ c && c ≤ 'Z'

/-- The JavaScript `s.toUpperCase()` on ASCII strings. -/
def strToUpper (s : String) : String := String.mk (s.data.map asciiUpperChar)

/-- Suffix test on strings (the JavaScript `s.endsWith(pat)`). -/
def strEndsWith (s pat : String) : Bool := startsWithL pat.data.reverse s.data.reverse

/-- Removal of the last `n` characters of a string. -/
def strDropRight (s : String) (n : Nat) : String :=
  String.mk (s.data.take (s.data.length - n))

/-- Operator-facing invalid-key message of geminiService.ts. -/
def geminiServiceInvalidKeyMsg : String :=
  "The Google Gemini API key is invalid. Please check the server configuration."

/-- Generic failure message of geminiService.ts. -/
def geminiServiceGenericMsg : String := "Failed to fetch response from AI service."

/-- The standalone legacy hosted-LLM service (geminiService.ts, getAIResponse):
an empty or missing `response.text` is turned into a thrown error, and the
catch block special-cases an underlying message containing
"API key not valid" into a distinct operator-facing message.  The oracle is
the SDK call: `.ok` a reply text (possibly missing), `.error m` a thrown
error with message `m`. -/
def geminiService_getAIResponse (call : Except String (Option String)) :
    Except JsError String :=
  match call with
  | .ok (some s) =>
    if s = "" then .error (.error geminiServiceGenericMsg) else .ok s
  | .ok none => .error (.error geminiServiceGenericMsg)
  | .error m =>
    if strHasSub m "API key not valid" then .error (.error geminiServiceInvalidKeyMsg)
    else .error (.error geminiServiceGenericMsg)

/-! ### The aggregator adapter (aiService.ts, getOpenRouterResponse) -/

mutual
/-- The JavaScript `String(v)` coercion on a JSON value (used when a non-string
lands in `new Error(...)`). -/
def Json.jsString : Json → String
  | .null => "null"
  | .bool true => "true"
  | .bool false => "false"
  | .num n => intRepr n
  | .str s => s
  | .arr xs => arrJsString xs
  | .obj _ => "[object Object]"

/-- Array `toString`: elements joined by commas, `null` rendered empty. -/
def arrJsString : List Json → String
  | [] => ""
  | [x] => elemJsString x
  | x :: y :: xs => elemJsString x ++ "," ++ arrJsString (y :: xs)

/-- One array element under `toString` (`null` joins as the empty string). -/
def elemJsString : Json → String
  | .null => ""
  | v => Json.jsString v
end

/-- The JavaScript index read `v[0]` where `v` may be `undefined`: throws on
`undefined` and `null`, otherwise yields the element, property "0", first
character, or `undefined`. -/
def jsIndex0 : Option Json → Except Unit (Option Json)
  | none => .error ()
  | some .null => .error ()
  | some (.arr xs) => .ok xs.head?
  | some (.obj fs) => .ok (fs.lookup "0")
  | some (.str s) => .ok (s.data.head?.map (fun c => Json.str (String.mk [c])))
  | some (.bool _) => .ok none
  | some (.num _) => .ok none

/-- The message of the error thrown for a non-ok aggregator response:
`err.error?.message || "OpenRouter Error"`. -/
def openRouterErrMsg (err : Json) : String :=
  match optChain (err.getField "error") "message" with
  | some v => if v.truthy then v.jsString else "OpenRouter Error"
  | none => "OpenRouter Error"

/-- The aggregator adapter.  The API-key guard runs before anything else, so a
missing key fails with zero fetches.  On a 2xx response the content is
`data.choices[0]?.message?.content || ""` — note the unguarded `[0]` index,
which throws when `choices` is missing, and the empty-string default.  The
catch block rethrows whatever was thrown. -/
def getOpenRouterResponse (history : List Message) (settings : Settings)
    (fetch : Except Unit (Nat × Option Json)) : Except JsError AIResponse × Nat :=
  match history, fetch with
  | _, _ =>
    if settings.openRouterApiKey = "" then
      (.error (.error "OpenRouter API key is missing."), 0)
    else
      match fetch with
      | .error _ => (.error .netError, 1)
      | .ok (status, body) =>
        if statusOk status then
          match body with
          | none => (.error .parseError, 1)
          | some data =>
            match jsIndex0 (data.getField "choices") with
            | .error _ =>
                (.error (.typeError "Cannot read properties of undefined (reading '0')"), 1)
            | .ok v0 =>
                (.ok { content := jsOrOpt (optChain (optChain v0 "message") "content") (.str "")
                       thoughts := none }, 1)
        else
          match body with
          | none => (.error .parseError, 1)
          | some err => (.error (.error (openRouterErrMsg err)), 1)

/-! ### The dispatch facade (aiService.ts, getAIResponse) -/

/-- One network oracle per adapter: what the respective call would yield. -/
structure Network where
  geminiCall : Except String GeminiReply
  openRouterFetch : Except Unit (Nat × Option Json)
  openClawFetch : OpenClawPayload → Except Unit (Nat × Option Json)

/-- The dispatch facade: a pure switch on `settings.apiProvider` forwarding to
the selected adapter (the source's `default: throw` branch is unreachable over
the closed provider type). -/
def getAIResponse (history : List Message) (settings : Settings)
    (attachments : List Attachment) (sessionNum : Nat) (net : Network) :
    Except JsError AIResponse × Nat :=
  match settings.apiProvider with
  | .gemini => getGeminiResponse history settings.geminiModel attachments net.geminiCall
  | .openrouter => getOpenRouterResponse history settings net.openRouterFetch
  | .openclaw => getOpenClawResponse history settings attachments sessionNum net.openClawFetch

/-! ### Auxiliary read-only operations on the custom-agent base URL
(aiService.ts, checkOpenClawHealth and fetchOpenClawAgents) -/

/-- URL stripping of the health check, the regex replace `/\/chat$/` with "":
removes a bare trailing "/chat" segment and nothing else. -/
def stripChatHealth (s : String) : String :=
  if strEndsWith s "/chat" then strDropRight s 5 else s

/-- URL stripping of agent discovery, the regex replace `/\/chat\/?$/` with "":
also removes a trailing "/chat/" (trailing slash included), so it is more
permissive than the health check's rule. -/
def stripChatAgents (s : String) : String :=
  if strEndsWith s "/chat/" then strDropRight s 6
  else if strEndsWith s "/chat" then strDropRight s 5
  else s

/-- The loop of the health check: probe each endpoint inside its own
try/catch, return true on the first 2xx, swallow failures and move on. -/
def probeAny (fetch : String → Except Unit Nat) : List String → Bool
  | [] => false
  | ep :: rest =>
    match fetch ep with
    | .ok s => if statusOk s then true else probeAny fetch rest
    | .error _ => probeAny fetch rest

/-- The health check: probes the stripped root's `/health` and then the
stripped root itself.  Every fetch is wrapped in try/catch and the outer body
too, so the function is total over any oracle — it never throws. -/
def checkOpenClawHealth (fetch : String → Except Unit Nat) (baseUrl : String) : Bool :=
  probeAny fetch [stripChatHealth baseUrl ++ "/health", stripChatHealth baseUrl]

/-- The URL agent discovery probes. -/
def openClawAgentsUrl (baseUrl : String) : String := stripChatAgents baseUrl ++ "/agents"

/-- Agent discovery: probes `/agents` on the stripped root, unwraps a bare
array or an `agents` envelope (`data.agents || []`), and returns the empty
array on a rejected fetch, an unparsable body, or a non-2xx status — the
whole body is one try/catch, so it never throws.  The returned value is kept
as `Json` because `data.agents` is forwarded verbatim, whatever it is;
the request headers (auth token) are not modelled. -/
def fetchOpenClawAgents (fetch : String → Except Unit (Nat × Option Json))
    (baseUrl : String) : Json :=
  match fetch (openClawAgentsUrl baseUrl) with
  | .error _ => .arr []
  | .ok (status, body) =>
    if statusOk status then
      match body with
      | none => .arr []
      | some data =>
        match data with
        | .arr xs => .arr xs
        | _ => jsOrOpt (data.getField "agents") (.arr [])
    else .arr []

/-! ### The model catalog fetch (aiService.ts, fetchOpenRouterModels) -/

/-- One entry of the upstream catalog, reduced to the two fields the source
reads. -/
structure UpstreamModel where
  id : String
  name : String
deriving Repr, DecidableEq

/-- Collation key modelling `String.prototype.localeCompare` under the default
(root/English) collation, restricted to strings where it is driven by case
folding: primary weights are the case-folded characters (shifted by one so the
`0` separator sorts before any character), and after the separator the case
weights break primary ties with lowercase before uppercase — so "a" < "B" and
"a" < "A", unlike raw code-point order. -/
def collationKey (s : String) : List Nat :=
  (s.data.map (fun c => (asciiLowerChar c).toNat + 1)) ++
    0 :: s.data.map (fun c => if asciiIsUpper c then 1 else 0)

/-- Lexicographic order on weight lists. -/
def listLexLe : List Nat → List Nat → Bool
  | [], _ => true
  | _ :: _, [] => false
  | a :: as, b :: bs => if a < b then true else if b < a then false else listLexLe as bs

/-- The model of `a.localeCompare(b)` for the default locale: negative, zero or
positive by collation key. -/
def localeCompare (a b : String) : Int :=
  if collationKey a = collationKey b then 0
  else if listLexLe (collationKey a) (collationKey b) then -1 else 1

/-- The comparator the source passes to `Array.prototype.sort`, read as the
"may come before" relation of the stable sort model: `a` may precede `b` when
`a.name.localeCompare(b.name) <= 0`. -/
def localeLe (a b : UpstreamModel) : Prop := localeCompare a.name b.name ≤ 0

instance : DecidableRel localeLe := fun x y =>
  inferInstanceAs (Decidable (localeCompare x.name y.name ≤ 0))

/-- The model catalog fetch: sorts the upstream `data.data` array with the
`localeCompare` comparator (`Array.prototype.sort` is a stable comparison
sort, modelled by `List.insertionSort`), projects `(id, name)` pairs, and
returns `[]` on a rejected fetch or a non-2xx status — the whole body is one
try/catch, so it never throws.  The oracle yields the upstream `data` array
directly; no other field of the body is consulted. -/
def fetchOpenRouterModels (fetch : Except Unit (Nat × List UpstreamModel)) :
    List (String × String) :=
  match fetch with
  | .error _ => []
  | .ok (status, models) =>
    if statusOk status then (List.insertionSort localeLe models).map (fun m => (m.id, m.name))
    else []

/-! ### Configuration resolution (App.tsx, the settings-loading effect) -/

/-- Hard-coded defaults (App.tsx DEFAULT_SETTINGS); also the value the React
state keeps when the loading effect aborts. -/
def DEFAULT_SETTINGS : Settings :=
  { apiProvider := .gemini
    geminiModel := "gemini-3-flash-preview"
    openRouterApiKey := ""
    openRouterModel := "google/gemini-flash-1.5"
    openClawBaseUrl := "http://localhost:8000/api/v1/chat"
    openClawAgentId := ""
    openClawAuthToken := ""
    speechVoiceURI := none
    sttProvider := .native
    localWhisperUrl := "http://localhost:8080/v1/audio/transcriptions"
    lightIntensity := 6 / 5
    activeAvatarId := "robot" }

/-- Value of one hexadecimal digit. -/
def hexDigitVal (c : Char) : Option Nat :=
  if '0' ≤ c ∧ c ≤ '9' then some (c.toNat - 48)
  else if 'A' ≤ c ∧ c ≤ 'F' then some (c.toNat - 55)
  else if 'a' ≤ c ∧ c ≤ 'f' then some (c.toNat - 87)
  else none

/-- UTF-8 bytes of one character (for the characters left verbatim by
percent-decoding). -/
def utf8EncodeCharNat (c : Char) : List Nat :=
  let n := c.toNat
  if n < 0x80 then [n]
  else if n < 0x800 then [0xC0 + n / 64, 0x80 + n % 64]
  else if n < 0x10000 then [0xE0 + n / 4096, 0x80 + (n / 64) % 64, 0x80 + n % 64]
  else [0xF0 + n / 262144, 0x80 + (n / 4096) % 64, 0x80 + (n / 64) % 64, 0x80 + n % 64]

/-- Percent-decoding to a byte sequence; `none` models the URIError thrown on
a malformed escape (a `%` not followed by two hexadecimal digits). -/
def percentDecode : List Char → Option (List Nat)
  | [] => some []
  | '%' :: c1 :: c2 :: rest =>
    match hexDigitVal c1, hexDigitVal c2 with
    | some h, some l => (percentDecode rest).map (fun bs => (16 * h + l) :: bs)
    | _, _ => none
  | ['%'] => none
  | ['%', _] => none
  | c :: rest => (percentDecode rest).map (fun bs => utf8EncodeCharNat c ++ bs)

/-- Continuation-byte test for UTF-8 decoding. -/
def isContByte (b : Nat) : Bool := 0x80 ≤ b && b < 0xC0

/-- Scalar-value test: inside Unicode range and not a surrogate. -/
def validCodepoint (n : Nat) : Bool := n < 0x110000 && !(0xD800 ≤ n && n ≤ 0xDFFF)

/-- Strict UTF-8 decoding of a byte sequence (fuel-driven; the fuel bounds the
length).  Overlong encodings, surrogates, out-of-range values and truncated
sequences yield `none`, modelling the URIError of `decodeURIComponent`. -/
def utf8DecodeAux : Nat → List Nat → Option (List Char)
  | _, [] => some []
  | 0, _ :: _ => none
  | fuel + 1, b :: rest =>
    if b < 0x80 then (utf8DecodeAux fuel rest).map (fun cs => Char.ofNat b :: cs)
    else if b < 0xC0 then none
    else if b < 0xE0 then
      match rest with
      | b2 :: rest2 =>
        if isContByte b2 then
          let cp := (b - 0xC0) * 64 + (b2 - 0x80)
          if 0x80 ≤ cp then (utf8DecodeAux fuel rest2).map (fun cs => Char.ofNat cp :: cs)
          else none
        else none
      | [] => none
    else if b < 0xF0 then
      match rest with
      | b2 :: b3 :: rest3 =>
        if isContByte b2 && isContByte b3 then
          let cp := (b - 0xE0) * 4096 + (b2 - 0x80) * 64 + (b3 - 0x80)
          if 0x800 ≤ cp && validCodepoint cp then
            (utf8DecodeAux fuel rest3).map (fun cs => Char.ofNat cp :: cs)
          else none
        else none
      | _ => none
    else if b < 0xF8 then
      match rest with
      | b2 :: b3 :: b4 :: rest4 =>
        if isContByte b2 && isContByte b3 && isContByte b4 then
          let cp := (b - 0xF0) * 262144 + (b2 - 0x80) * 4096 + (b3 - 0x80) * 64 + (b4 - 0x80)
          if 0x10000 ≤ cp && validCodepoint cp then
            (utf8DecodeAux fuel rest4).map (fun cs => Char.ofNat cp :: cs)
          else none
        else none
      | _ => none
    else none

/-- The model of `decodeURIComponent`: percent-decode to bytes, then strict
UTF-8; `none` is the thrown URIError. -/
def decodeURIComponent (s : String) : Option String :=
  (percentDecode s.data).bind (fun bs => (utf8DecodeAux bs.length bs).map String.mk)

/-- The page-load query parameters the effect reads (`params.get` returns
`none` for an absent key). -/
structure QueryParams where
  provider : Option String := none
  baseUrl : Option String := none
  agentId : Option String := none
  authToken : Option String := none
  model : Option String := none
deriving Repr, DecidableEq

/-- Truthiness of a `params.get` result (absent and empty are falsy). -/
def truthyParam : Option String → Bool
  | none => false
  | some s => decide (s ≠ "")

/-- Provider names recognized by the auto-configuration guard. -/
def recognizedProviders : List String := ["gemini", "openrouter", "openclaw"]

/-- The cast `providerParam as any` once the guard has passed. -/
def providerOfString : String → ApiProvider
  | "openrouter" => .openrouter
  | "openclaw" => .openclaw
  | _ => .gemini

/-- Outcome of the loading effect: the settings passed to `setSettings` (or
left at the React default when the effect aborted) and the messages appended
to History. -/
structure LoadResult where
  settings : Settings
  appended : List Message
deriving Repr, DecidableEq

/-- The synthetic system message announcing auto-configuration. -/
def autoConfigMessage (providerParam : String) (now : Int) : Message :=
  { id := "sys-init"
    role := .system
    content := "AUTO-CONFIG: Connected to " ++ strToUpper providerParam ++ " via URL parameters."
    timestamp := now }

/-- Application of the agent-id, auth-token and model override parameters and
the single appended system message (the tail of the auto-configuration block
in App.tsx); `model` routes to the hosted-LLM or aggregator field by the
provider name. -/
def applyRestParams (providerParam : String) (params : QueryParams) (now : Int)
    (s2 : Settings) : LoadResult :=
  let s3 := if truthyParam params.agentId then
      { s2 with openClawAgentId := params.agentId.getD "" } else s2
  let s4 := if truthyParam params.authToken then
      { s3 with openClawAuthToken := params.authToken.getD "" } else s3
  let s5 := if truthyParam params.model then
      (if providerParam = "gemini" then
        { s4 with geminiModel := params.model.getD "" }
      else if providerParam = "openrouter" then
        { s4 with openRouterModel := params.model.getD "" }
      else s4)
    else s4
  { settings := s5, appended := [autoConfigMessage providerParam now] }

/-- The settings-loading effect of App.tsx.  `stored` is the already-parsed
persisted blob (`none` when absent; a JSON.parse failure takes the same catch
path as a URIError and is not separately modelled), `now` the `Date.now()`
reading.  A recognized `provider` parameter overrides the provider and any
truthy provider-specific parameters, decoding `baseUrl` and then applying the
rest via `applyRestParams`; a URIError from `decodeURIComponent` reaches the
surrounding catch, so neither `setSettings` nor `setHistory` runs: the
settings stay at the React default and nothing is appended. -/
def loadSettingsEffect (stored : Option Settings) (params : QueryParams) (now : Int) :
    LoadResult :=
  let base :=
    match stored with
    | some p => if p.activeAvatarId = "" then { p with activeAvatarId := "robot" } else p
    | none => DEFAULT_SETTINGS
  match params.provider with
  | none => { settings := base, appended := [] }
  | some providerParam =>
    if providerParam ∈ recognizedProviders then
      let s1 := { base with apiProvider := providerOfString providerParam }
      if truthyParam params.baseUrl then
        match decodeURIComponent (params.baseUrl.getD "") with
        | none => { settings := DEFAULT_SETTINGS, appended := [] }
        | some u => applyRestParams providerParam params now { s1 with openClawBaseUrl := u }
      else applyRestParams providerParam params now s1
    else { settings := base, appended := [] }

/-! ### Remaining specification-side definitions used by the theorems -/

/-- A generic truthiness-or chain over a key list with a final default,
matching the shape of the adapter's `||` chain (used to relate the source
chain to the spec's priority scan). -/
def chainOr (data : Json) : List String → Json → Json
  | [], d => d
  | k :: ks, d => jsOrOpt (data.getField k) (chainOr data ks d)

/-- Case-sensitive (raw code-point) lexicographic order on character lists —
the ordering the spec asserts for the model catalog. -/
def csLeChars : List Char → List Char → Bool
  | [], _ => true
  | _ :: _, [] => false
  | a :: as, b :: bs => if a < b then true else if b < a then false else csLeChars as bs

/-- Case-sensitive lexicographic order on strings. -/
def csLeString (a b : String) : Bool := csLeChars a.data b.data

/-- Test that a catalog result is sorted ascending by display name under the
case-sensitive lexicographic order (the ordering the spec claims). -/
def sortedByNameCS : List (String × String) → Bool
  | [] => true
  | [_] => true
  | x :: y :: rest => csLeString x.2 y.2 && sortedByNameCS (y :: rest)

/-! ## Theorems -/

theorem natDigitsAux_ne_nil (fuel n : Nat) : natDigitsAux (fuel + 1) n ≠ [] := by
  unfold natDigitsAux
  split
  · simp
  · simp

theorem natRepr_ne_empty (n : Nat) : natRepr n ≠ "" := by
  unfold natRepr
  intro h
  exact natDigitsAux_ne_nil n n (congrArg String.data h)

theorem append_ne_empty (a b : String) (ha : a ≠ "") : a ++ b ≠ "" := by
  intro h
  apply ha
  cases a with
  | mk la =>
    cases b with
    | mk lb =>
      have h2 : la ++ lb = ([] : List Char) := congrArg String.data h
      have h3 : la = [] := (List.append_eq_nil.mp h2).1
      rw [h3]

theorem intRepr_ne_empty (i : Int) : intRepr i ≠ "" := by
  unfold intRepr
  split
  · exact append_ne_empty _ _ (by decide)
  · exact natRepr_ne_empty i.natAbs

theorem stringify_ne_empty (j : Json) : Json.stringify j ≠ "" := by
  cases j with
  | null => decide
  | bool b => cases b <;> decide
  | num n => exact intRepr_ne_empty n
  | str s => exact append_ne_empty _ _ (append_ne_empty _ _ (by decide))
  | arr xs => exact append_ne_empty _ _ (append_ne_empty _ _ (by decide))
  | obj fs => exact append_ne_empty _ _ (append_ne_empty _ _ (by decide))

theorem chainOr_eq_firstTruthyField (data d : Json) :
    ∀ ks : List String, chainOr data ks d = (firstTruthyField data ks).getD d := by
  intro ks
  induction ks with
  | nil => rfl
  | cons k ks ih =>
    simp only [chainOr, firstTruthyField]
    cases h : data.getField k with
    | none => simpa [jsOrOpt] using ih
    | some v =>
      cases ht : v.truthy with
      | true => simp [jsOrOpt, ht]
      | false => simp [jsOrOpt, ht, ih]

theorem chainOr_truthy (data d : Json) (hd : d.truthy = true) :
    ∀ ks : List String, (chainOr data ks d).truthy = true := by
  intro ks
  induction ks with
  | nil => exact hd
  | cons k ks ih =>
    simp only [chainOr]
    cases h : data.getField k with
    | none => simpa [jsOrOpt] using ih
    | some v =>
      cases ht : v.truthy with
      | true => simp [jsOrOpt, ht]
      | false => simpa [jsOrOpt, ht] using ih

/-- C1 (confirmed): for every JSON body accepted from the custom-agent
endpoint, the normalized reply content is the first non-empty
(JavaScript-truthy) of the `response`, `message`, `text`, `output` fields in
that priority order, and the JSON serialization of the whole body when none
matches; the content is always truthy, so never undefined and never the empty
string.  (The C10 theorem below shows `openClawNormalize` is exactly what
the adapter applies to a 2xx body.) -/
theorem c1_custom_agent_content (data : Json) :
    (openClawNormalize data).content
        = (firstTruthyField data ["response", "message", "text", "output"]).getD
            (Json.str data.stringify)
      ∧ ((openClawNormalize data).content).truthy = true := by
  have he : (openClawNormalize data).content
      = chainOr data ["response", "message", "text", "output"] (Json.str data.stringify) := rfl
  refine ⟨?_, ?_⟩
  · rw [he, chainOr_eq_firstTruthyField]
  · rw [he]
    apply chainOr_truthy
    simp [Json.truthy, stringify_ne_empty data]

/-- C2 counterexample: on a body with no recognized reasoning field — and
likewise on a body whose scalar `reasoning` field is the empty string — the
normalizer's result still carries a `thoughts` property holding the empty
array; the trace is present-but-empty, not absent as the claim states. -/
theorem c2_trace_counterexample :
    (openClawNormalize (Json.obj [])).thoughts = some []
      ∧ (openClawNormalize (Json.obj [("reasoning", Json.str "")])).thoughts = some [] :=
  ⟨rfl, rfl⟩

/-- C2 (amended): the reasoning trace is the `thoughts` field used as-is when
it is an array, else an array `steps` field with non-string elements
JSON-stringified, else a truthy scalar `reasoning` value wrapped as a
singleton; when none of these match the trace is present as the empty array
(the returned object always carries a `thoughts` property). -/
theorem truthy_and_isArr (o : Option Json) : (truthyOpt o && isArrOpt o) = isArrOpt o := by
  cases o with
  | none => rfl
  | some v => cases v <;> simp [truthyOpt, isArrOpt, Json.truthy]

theorem c2_trace_always_present (data : Json) :
    (openClawNormalize data).thoughts = some (traceSpec data) := by
  show some (openClawThoughts data) = some (traceSpec data)
  congr 1
  unfold openClawThoughts traceSpec
  rw [truthy_and_isArr, truthy_and_isArr]
/-- C3 counterexample: a successful (2xx) aggregator call whose body is
`\x7bchoices: []\x7d` yields an `AIResponse` whose content is the empty
string — the aggregator adapter substitutes `""`, not a fallback, so the
claim's universal non-emptiness over every provider fails. -/
theorem c3_aggregator_empty_content :
    getOpenRouterResponse [] { DEFAULT_SETTINGS with openRouterApiKey := "k" }
        (.ok (200, some (Json.obj [("choices", Json.arr [])])))
      = (.ok { content := Json.str "", thoughts := none }, 1)
    ∧ Json.truthy (Json.str "") = false :=
  ⟨rfl, rfl⟩

/-- C3 (amended): the hosted-LLM adapter indeed never returns empty content —
on every SDK success its content is a non-empty string, and an empty or
missing response text becomes the fixed fallback "I didn't catch that." ; the
universal claim over every provider fails because the aggregator adapter
degrades to the empty string (see the counterexample). -/
theorem c3_hosted_llm_fallback :
    (∀ (history : List Message) (model : String) (atts : List Attachment) (r : GeminiReply),
      ∃ s, getGeminiResponse history model atts (.ok r)
          = (.ok { content := Json.str s, thoughts := none }, 1) ∧ s ≠ "")
    ∧ (∀ (history : List Message) (model : String) (atts : List Attachment) (r : GeminiReply),
      r.text = none ∨ r.text = some "" →
        getGeminiResponse history model atts (.ok r)
          = (.ok { content := Json.str "I didn't catch that.", thoughts := none }, 1)) := by
  constructor
  · intro history model atts r
    refine ⟨jsOrStr r.text "I didn't catch that.", rfl, ?_⟩
    unfold jsOrStr
    cases r.text with
    | none => simp
    | some t =>
      by_cases ht : t = "" <;> simp [ht]
  · intro history model atts r hr
    rcases hr with h | h <;> simp [getGeminiResponse, jsOrStr, h]

theorem c3_hosted_llm_fallback_witness :
    getGeminiResponse [] "gemini-3-flash-preview" [] (.ok { text := some "" })
      = (.ok { content := Json.str "I didn't catch that.", thoughts := none }, 1) :=
  c3_hosted_llm_fallback.2 [] "gemini-3-flash-preview" [] { text := some "" } (Or.inr rfl)

/-- C4 (confirmed): with the aggregator selected and no API key configured,
the dispatch facade fails with the configuration error and performs zero
fetches, whatever the history, attachments and network would have been. -/
theorem c4_missing_key_fails_before_fetch (history : List Message) (settings : Settings)
    (attachments : List Attachment) (sessionNum : Nat) (net : Network)
    (hprov : settings.apiProvider = ApiProvider.openrouter)
    (hkey : settings.openRouterApiKey = "") :
    getAIResponse history settings attachments sessionNum net
      = (.error (.error "OpenRouter API key is missing."), 0) := by
  unfold getAIResponse
  rw [hprov]
  unfold getOpenRouterResponse
  rw [hkey]
  simp

theorem c4_missing_key_fails_before_fetch_witness :
    getAIResponse [] { DEFAULT_SETTINGS with apiProvider := ApiProvider.openrouter } [] 0
        { geminiCall := .error "x", openRouterFetch := .ok (200, none)
          openClawFetch := fun _ => .error () }
      = (.error (.error "OpenRouter API key is missing."), 0) :=
  c4_missing_key_fails_before_fetch [] _ [] 0 _ rfl rfl

/-- C7 counterexample: through the adapter the dispatch facade actually uses
(aiService.ts), an underlying failure whose message carries the invalid-key
signal produces exactly the same wrapped error as any other failure — no
distinct operator-facing text exists on this path. -/
theorem c7_facade_error_not_distinct :
    getGeminiResponse [] "m" [] (.error "API key not valid.")
      = (.error (.error "Failed to communicate with Gemini."), 1)
    ∧ getGeminiResponse [] "m" [] (.error "network down")
      = (.error (.error "Failed to communicate with Gemini."), 1)
    ∧ strHasSub "API key not valid." "API key not valid" = true :=
  ⟨rfl, rfl, by decide⟩

/-- C7 (amended): the invalid-key special case lives in the standalone legacy
service geminiService.ts, whose catch block maps messages containing
"API key not valid" to a distinct, clearer operator-facing text and everything
else to its generic text; the adapter reached through the dispatch facade has
no such distinction — it wraps every failure into one generic message. -/
theorem c7_invalid_key_special_case :
    (∀ m, strHasSub m "API key not valid" = true →
      geminiService_getAIResponse (.error m) = .error (.error geminiServiceInvalidKeyMsg))
    ∧ (∀ m, strHasSub m "API key not valid" = false →
      geminiService_getAIResponse (.error m) = .error (.error geminiServiceGenericMsg))
    ∧ geminiServiceInvalidKeyMsg ≠ geminiServiceGenericMsg
    ∧ (∀ (history : List Message) (model : String) (atts : List Attachment) (m : String),
      getGeminiResponse history model atts (.error m)
        = (.error (.error "Failed to communicate with Gemini."), 1)) := by
  refine ⟨?_, ?_, by decide, ?_⟩
  · intro m hm
    simp [geminiService_getAIResponse, hm]
  · intro m hm
    simp [geminiService_getAIResponse, hm]
  · intro history model atts m
    rfl

theorem c7_invalid_key_special_case_witness :
    geminiService_getAIResponse (.error "API key not valid.")
      = .error (.error geminiServiceInvalidKeyMsg) :=
  c7_invalid_key_special_case.1 "API key not valid." (by decide)

/-- C8 (confirmed): the health check answers true exactly when one of its two
probes — the `/health` sub-path of the base URL with a trailing bare `/chat`
stripped, or that stripped root itself — resolves with a 2xx status; it is a
total function of the probe outcomes (every probe sits in its own try/catch),
so it returns false rather than throwing when both probes fail. -/
theorem c8_health_check_iff (fetch : String → Except Unit Nat) (baseUrl : String) :
    checkOpenClawHealth fetch baseUrl = true
      ↔ ((∃ s, fetch (stripChatHealth baseUrl ++ "/health") = .ok s ∧ statusOk s = true)
        ∨ (∃ s, fetch (stripChatHealth baseUrl) = .ok s ∧ statusOk s = true)) := by
  unfold checkOpenClawHealth
  cases h1 : fetch (stripChatHealth baseUrl ++ "/health") with
  | error e1 =>
    cases h2 : fetch (stripChatHealth baseUrl) with
    | error e2 => simp [probeAny, h1, h2]
    | ok s2 =>
      cases hs2 : statusOk s2 <;> simp [probeAny, h1, h2, hs2]
  | ok s1 =>
    cases hs1 : statusOk s1 with
    | true => simp [probeAny, h1, hs1]
    | false =>
      cases h2 : fetch (stripChatHealth baseUrl) with
      | error e2 => simp [probeAny, h1, h2, hs1]
      | ok s2 =>
        cases hs2 : statusOk s2 <;> simp [probeAny, h1, h2, hs1, hs2]

/-- C9 counterexample: the two operations do not share one stripping rule —
on the base URL "http://x/chat/" agent discovery strips the trailing
"/chat/" and probes "http://x/agents", while the health check's rule leaves
the URL untouched, so the same rule would have probed "http://x/chat//agents". -/
theorem c9_strip_rule_differs :
    stripChatAgents "http://x/chat/" = "http://x"
    ∧ stripChatHealth "http://x/chat/" = "http://x/chat/"
    ∧ openClawAgentsUrl "http://x/chat/" = "http://x/agents"
    ∧ stripChatHealth "http://x/chat/" ++ "/agents" ≠ openClawAgentsUrl "http://x/chat/" := by
  refine ⟨by decide, by decide, by decide, by decide⟩

/-- C9 (amended): agent discovery strips a trailing `/chat` segment by its own
slightly more permissive rule (a trailing slash after `/chat` is stripped
too, which the health check's rule keeps), probes `/agents` on that root,
returns the same agent list whether the 2xx body is a bare array or an
`agents` envelope wrapping that array, and returns the empty list without
throwing on a rejected fetch or a non-2xx status. -/
theorem c9_agent_discovery (fetch : String → Except Unit (Nat × Option Json))
    (baseUrl : String) :
    (∀ e, fetch (openClawAgentsUrl baseUrl) = .error e →
      fetchOpenClawAgents fetch baseUrl = .arr [])
    ∧ (∀ status body, fetch (openClawAgentsUrl baseUrl) = .ok (status, body) →
      statusOk status = false → fetchOpenClawAgents fetch baseUrl = .arr [])
    ∧ (∀ status xs, fetch (openClawAgentsUrl baseUrl) = .ok (status, some (Json.arr xs)) →
      statusOk status = true → fetchOpenClawAgents fetch baseUrl = .arr xs)
    ∧ (∀ status xs, fetch (openClawAgentsUrl baseUrl)
          = .ok (status, some (Json.obj [("agents", Json.arr xs)])) →
      statusOk status = true → fetchOpenClawAgents fetch baseUrl = .arr xs) := by
  refine ⟨?_, ?_, ?_, ?_⟩
  · intro e h
    simp [fetchOpenClawAgents, h]
  · intro status body h hs
    simp [fetchOpenClawAgents, h, hs]
  · intro status xs h hs
    simp [fetchOpenClawAgents, h, hs]
  · intro status xs h hs
    simp [fetchOpenClawAgents, h, hs, jsOrOpt, Json.getField, Json.truthy]

theorem c9_agent_discovery_witness :
    fetchOpenClawAgents (fun _ => .ok (200, some (Json.obj [("agents",
        Json.arr [Json.obj [("id", Json.str "a1"), ("name", Json.str "Agent")]])])))
        "http://x/chat"
      = Json.arr [Json.obj [("id", Json.str "a1"), ("name", Json.str "Agent")]] :=
  (c9_agent_discovery _ "http://x/chat").2.2.2 200 _ rfl (by decide)

/-- C10 (confirmed): the custom-agent adapter reads the last element of the
history unconditionally; on the empty history this is a TypeError thrown
before any fetch, so the success path is reachable exactly under the
precondition that the history is non-empty — and then the message sent is the
last element's content (third conjunct: an oracle that only answers when the
payload's message equals the last content is in fact answered). -/
theorem c10_last_message_precondition (settings : Settings)
    (hbase : settings.openClawBaseUrl ≠ "") :
    (∀ (atts : List Attachment) (n : Nat)
        (fetch : OpenClawPayload → Except Unit (Nat × Option Json)),
      getOpenClawResponse [] settings atts n fetch
        = (.error (.typeError "Cannot read properties of undefined (reading 'content')"), 0))
    ∧ (∀ (history : List Message) (atts : List Attachment) (n status : Nat) (body : Json),
      history ≠ [] → statusOk status = true →
        getOpenClawResponse history settings atts n (fun _ => .ok (status, some body))
          = (.ok (openClawNormalize body), 1))
    ∧ (∀ (history : List Message) (atts : List Attachment) (n : Nat) (h : history ≠ []),
      getOpenClawResponse history settings atts n
          (fun p => if p.message = (history.getLast h).content then .ok (200, some (Json.obj []))
            else .error ())
        = (.ok (openClawNormalize (Json.obj [])), 1)) := by
  refine ⟨?_, ?_, ?_⟩
  · intro atts n fetch
    simp [getOpenClawResponse, hbase]
  · intro history atts n status body hne hok
    unfold getOpenClawResponse
    rw [if_neg hbase, List.getLast?_eq_getLast history hne]
    simp [hok]
  · intro history atts n h
    unfold getOpenClawResponse
    rw [if_neg hbase, List.getLast?_eq_getLast history h]
    simp [statusOk]

theorem c10_last_message_precondition_witness :
    getOpenClawResponse [{ id := "1", role := Role.user, content := "hi", timestamp := 0 }]
        DEFAULT_SETTINGS [] 7 (fun _ => .ok (200, some (Json.obj [("response", Json.str "ok")])))
      = (.ok (openClawNormalize (Json.obj [("response", Json.str "ok")])), 1) :=
  (c10_last_message_precondition DEFAULT_SETTINGS (by decide)).2.1
    [{ id := "1", role := Role.user, content := "hi", timestamp := 0 }] [] 7 200
    (Json.obj [("response", Json.str "ok")]) (by simp) (by decide)

theorem listLexLe_refl : ∀ a : List Nat, listLexLe a a = true
  | [] => rfl
  | x :: xs => by simp [listLexLe, listLexLe_refl xs]

theorem listLexLe_total : ∀ a b : List Nat, listLexLe a b = true ∨ listLexLe b a = true
  | [], _ => Or.inl rfl
  | _ :: _, [] => Or.inr rfl
  | a :: as, b :: bs => by
    rcases Nat.lt_trichotomy a b with h | h | h
    · left; simp [listLexLe, h]
    · subst h
      rcases listLexLe_total as bs with ih | ih
      · left; simp [listLexLe, ih]
      · right; simp [listLexLe, ih]
    · right; simp [listLexLe, h]

theorem listLexLe_trans :
    ∀ a b c : List Nat, listLexLe a b = true → listLexLe b c = true → listLexLe a c = true
  | [], _, _, _, _ => rfl
  | _ :: _, [], _, h1, _ => by simp [listLexLe] at h1
  | _ :: _, _ :: _, [], _, h2 => by simp [listLexLe] at h2
  | x :: xs, y :: ys, z :: zs, h1, h2 => by
    simp only [listLexLe] at h1 h2 ⊢
    rcases Nat.lt_trichotomy x y with hxy | hxy | hxy
    · rcases Nat.lt_trichotomy y z with hyz | hyz | hyz
      · simp [Nat.lt_trans hxy hyz]
      · subst hyz; simp [hxy]
      · rw [if_neg (Nat.lt_asymm hyz), if_pos hyz] at h2
        exact absurd h2 (by simp)
    · subst hxy
      rcases Nat.lt_trichotomy x z with hxz | hxz | hxz
      · simp [hxz]
      · subst hxz
        rw [if_neg (Nat.lt_irrefl x), if_neg (Nat.lt_irrefl x)] at h1 h2 ⊢
        exact listLexLe_trans xs ys zs h1 h2
      · rw [if_neg (Nat.lt_asymm hxz), if_pos hxz] at h2
        exact absurd h2 (by simp)
    · rw [if_neg (Nat.lt_asymm hxy), if_pos hxy] at h1
      exact absurd h1 (by simp)

theorem localeLe_iff (a b : UpstreamModel) :
    localeLe a b ↔ listLexLe (collationKey a.name) (collationKey b.name) = true := by
  unfold localeLe localeCompare
  by_cases he : collationKey a.name = collationKey b.name
  · simp [he, listLexLe_refl]
  · by_cases hle : listLexLe (collationKey a.name) (collationKey b.name) = true
    · simp [he, hle]
    · simp [he, hle]

theorem localeLe_total (a b : UpstreamModel) : localeLe a b ∨ localeLe b a := by
  rcases listLexLe_total (collationKey a.name) (collationKey b.name) with h | h
  · exact Or.inl ((localeLe_iff a b).mpr h)
  · exact Or.inr ((localeLe_iff b a).mpr h)

theorem localeLe_trans (a b c : UpstreamModel) :
    localeLe a b → localeLe b c → localeLe a c := fun h1 h2 =>
  (localeLe_iff a c).mpr
    (listLexLe_trans _ _ _ ((localeLe_iff a b).mp h1) ((localeLe_iff b c).mp h2))

/-- C6 counterexample: on a 2xx catalog of names "a" then "B" the fetch
returns them in that order, because the default-locale `localeCompare` places
"a" before "B"; under the case-sensitive lexicographic order the spec claims,
"B" (code point 66) precedes "a" (code point 97), so the result is not sorted
as claimed. -/
theorem c6_catalog_not_cs_sorted :
    fetchOpenRouterModels (.ok (200, [{ id := "1", name := "a" }, { id := "2", name := "B" }]))
      = [("1", "a"), ("2", "B")]
    ∧ sortedByNameCS [("1", "a"), ("2", "B")] = false
    ∧ localeCompare "a" "B" = -1 := by
  refine ⟨by decide, by decide, by decide⟩

/-- C6 (amended): the model catalog fetch returns `(id, name)` pairs sorted
ascending by display name under the default-locale `localeCompare` ordering
(case-insensitive primary weights with lowercase-first tie-breaks, not the
case-sensitive lexicographic order), as a permutation of the upstream
entries' projections; on a rejected fetch or non-2xx status it returns the
empty list rather than propagating an error. -/
theorem c6_catalog_sort :
    fetchOpenRouterModels (.error ()) = []
    ∧ (∀ (status : Nat) (models : List UpstreamModel), statusOk status = false →
        fetchOpenRouterModels (.ok (status, models)) = [])
    ∧ (∀ (status : Nat) (models : List UpstreamModel), statusOk status = true →
        List.Pairwise (fun x y => localeCompare x.2 y.2 ≤ 0)
            (fetchOpenRouterModels (.ok (status, models)))
        ∧ (fetchOpenRouterModels (.ok (status, models))).Perm
            (models.map fun m => (m.id, m.name))) := by
  refine ⟨rfl, ?_, ?_⟩
  · intro status models h
    simp [fetchOpenRouterModels, h]
  · intro status models h
    constructor
    · have hs : List.Sorted localeLe (List.insertionSort localeLe models) :=
        @List.sorted_insertionSort _ localeLe _ ⟨localeLe_total⟩
          ⟨fun a b c => localeLe_trans a b c⟩ models
      simp only [fetchOpenRouterModels, h, if_pos]
      rw [List.pairwise_map]
      exact hs
    · simp only [fetchOpenRouterModels, h, if_pos]
      exact (List.perm_insertionSort localeLe models).map _

theorem c6_catalog_sort_witness :
    List.Pairwise (fun x y => localeCompare x.2 y.2 ≤ 0)
        (fetchOpenRouterModels (.ok (200,
          [{ id := "1", name := "B" }, { id := "2", name := "a" }])))
    ∧ (fetchOpenRouterModels (.ok (200,
          [{ id := "1", name := "B" }, { id := "2", name := "a" }]))).Perm
        [("1", "B"), ("2", "a")] :=
  c6_catalog_sort.2.2 200 [{ id := "1", name := "B" }, { id := "2", name := "a" }] (by decide)

theorem applyRestParams_core (p : String) (params : QueryParams) (now : Int) (s2 : Settings) :
    ((applyRestParams p params now s2).settings.apiProvider = s2.apiProvider)
    ∧ ((applyRestParams p params now s2).settings.openClawBaseUrl = s2.openClawBaseUrl)
    ∧ (truthyParam params.agentId = true →
        (applyRestParams p params now s2).settings.openClawAgentId = params.agentId.getD "")
    ∧ (truthyParam params.authToken = true →
        (applyRestParams p params now s2).settings.openClawAuthToken = params.authToken.getD "")
    ∧ (truthyParam params.model = true → p = "gemini" →
        (applyRestParams p params now s2).settings.geminiModel = params.model.getD "")
    ∧ (truthyParam params.model = true → p = "openrouter" →
        (applyRestParams p params now s2).settings.openRouterModel = params.model.getD "")
    ∧ (applyRestParams p params now s2).appended = [autoConfigMessage p now] := by
  unfold applyRestParams
  by_cases h1 : truthyParam params.agentId <;>
    by_cases h2 : truthyParam params.authToken <;>
      by_cases h3 : truthyParam params.model <;>
        by_cases h4 : p = "gemini" <;>
          by_cases h5 : p = "openrouter" <;>
            simp_all

/-- C5 counterexample: with a recognized provider name but a malformed
percent-encoding in the base-URL parameter, `decodeURIComponent` throws, the
surrounding catch abandons the whole auto-configuration, and the resolved
settings stay at the React default — provider `gemini`, not the requested
one — with no system message appended. -/
theorem c5_malformed_base_url_aborts :
    loadSettingsEffect none { provider := some "openclaw", baseUrl := some "%" } 0
      = { settings := DEFAULT_SETTINGS, appended := [] }
    ∧ DEFAULT_SETTINGS.apiProvider ≠ ApiProvider.openclaw :=
  ⟨rfl, by decide⟩

/-- C5 (amended): when the query string names a recognized provider and every
present override decodes cleanly, the resolved settings take that provider;
a present non-empty base URL is applied URL-decoded, agent id and auth token
verbatim, and the model parameter routes to the hosted-LLM or aggregator
field according to the provider name; exactly one synthetic system-role
message announcing the auto-configuration is appended.  (When the base URL's
percent-encoding is malformed the whole resolution aborts instead — see the
counterexample.) -/
theorem c5_auto_config (stored : Option Settings) (params : QueryParams) (now : Int)
    (p u : String) (hp : params.provider = some p) (hrec : p ∈ recognizedProviders)
    (hdec : truthyParam params.baseUrl = true →
      decodeURIComponent (params.baseUrl.getD "") = some u) :
    ((loadSettingsEffect stored params now).settings.apiProvider = providerOfString p)
    ∧ (truthyParam params.baseUrl = true →
        (loadSettingsEffect stored params now).settings.openClawBaseUrl = u)
    ∧ (truthyParam params.agentId = true →
        (loadSettingsEffect stored params now).settings.openClawAgentId
          = params.agentId.getD "")
    ∧ (truthyParam params.authToken = true →
        (loadSettingsEffect stored params now).settings.openClawAuthToken
          = params.authToken.getD "")
    ∧ (truthyParam params.model = true → p = "gemini" →
        (loadSettingsEffect stored params now).settings.geminiModel = params.model.getD "")
    ∧ (truthyParam params.model = true → p = "openrouter" →
        (loadSettingsEffect stored params now).settings.openRouterModel
          = params.model.getD "")
    ∧ ((loadSettingsEffect stored params now).appended = [autoConfigMessage p now]
        ∧ (autoConfigMessage p now).role = Role.system
        ∧ (autoConfigMessage p now).content
            = "AUTO-CONFIG: Connected to " ++ strToUpper p ++ " via URL parameters.") := by
  obtain ⟨s2, hL, hprov2, hbase2⟩ :
      ∃ s2, loadSettingsEffect stored params now = applyRestParams p params now s2
        ∧ s2.apiProvider = providerOfString p
        ∧ (truthyParam params.baseUrl = true → s2.openClawBaseUrl = u) := by
    simp only [loadSettingsEffect, hp]
    rw [if_pos hrec]
    by_cases hb : truthyParam params.baseUrl
    · rw [if_pos hb, hdec hb]
      exact ⟨_, rfl, rfl, fun _ => rfl⟩
    · rw [if_neg hb]
      exact ⟨_, rfl, rfl, fun hb2 => absurd hb2 hb⟩
  obtain ⟨hA, hB, hC, hD, hE, hF, hG⟩ := applyRestParams_core p params now s2
  rw [hL]
  exact ⟨hA.trans hprov2, fun hb => hB.trans (hbase2 hb), hC, hD, hE, hF, hG, rfl, rfl⟩

theorem c5_auto_config_witness :
    ((loadSettingsEffect (some { DEFAULT_SETTINGS with apiProvider := ApiProvider.openrouter })
          { provider := some "openclaw", baseUrl := some "http%3A%2F%2Fx" } 0).settings.apiProvider
        = ApiProvider.openclaw)
    ∧ ((loadSettingsEffect (some { DEFAULT_SETTINGS with apiProvider := ApiProvider.openrouter })
          { provider := some "openclaw", baseUrl := some "http%3A%2F%2Fx" } 0).settings.openClawBaseUrl
        = "http://x")
    ∧ ((loadSettingsEffect (some { DEFAULT_SETTINGS with apiProvider := ApiProvider.openrouter })
          { provider := some "openclaw", baseUrl := some "http%3A%2F%2Fx" } 0).appended
        = [autoConfigMessage "openclaw" 0]) := by
  have h := c5_auto_config (some { DEFAULT_SETTINGS with apiProvider := ApiProvider.openrouter })
    { provider := some "openclaw", baseUrl := some "http%3A%2F%2Fx" } 0 "openclaw" "http://x"
    rfl (by decide) (fun _ => by decide)
  exact ⟨h.1, h.2.1 (by decide), h.2.2.2.2.2.2.1⟩

end OpenClawAvatar
